import Mathlib

/-!
Verification development for the WordExtremist backend's realtime session layer.

The definitions below are a shallow embedding of the Python source:

* `app/models/game.py`          — `SentencePromptPublic`, `GameStatePlayer`, `GameState`
* `app/models/validation.py`    — `WordValidationResult`
* `app/models/enums.py`         — `RoundEndReason`
* `app/services/word_validator.py` — `validate_word_against_prompt` and its
  process-wide counters
* `app/services/game_service.py`   — `process_player_game_action`,
  `_handle_round_or_game_end`, `_prepare_next_round`, `handle_player_disconnect`
* `app/services/matchmaking_service.py` — `create_bot_match`
* `app/main.py`                 — the bot age-out sweep's polling-status update

Modelling conventions, used consistently below:

* Python `int` is `Int`; wall-clock instants (`time.time()`) are passed in as an
  explicit `now : Int` parameter.
* Database persistence calls (`crud_game_log.*`, `crud_user.*`, `crud_system.*`)
  are best-effort in the source (wrapped in `try/except`, or pure appends whose
  failure does not alter the in-memory game flow), so they are modelled as
  no-ops on `GameState`; the submission log that serves as the validation cache
  is modelled explicitly as a `List WordSubmissionRec` where needed.
* The external LLM call in `word_validator.py` is a suspension point: its parsed
  JSON judgment (the outcome of the model-fallback loop) is passed in as a
  `GeminiJudgment` parameter.  Likewise the Content Provider's random prompt
  fetch is an `Option SentencePromptPublic` parameter (`none` = no prompt in
  that language).
* Pydantic models ignore unknown constructor keyword arguments (`extra="ignore"`
  is the default), and accessing an attribute that is not a declared field
  raises `AttributeError`.  Both behaviours are modelled faithfully where the
  source hits them.
* A Python expression that raises is modelled with `Except PyErr`; code the
  claims exercise that cannot raise returns plainly.
-/

namespace WordExtremist

/-- Python runtime errors that the embedded code can raise.  The payload names
the attribute or detail involved. -/
inductive PyErr where
  | attributeError (attr : String)
  deriving DecidableEq, Repr

/-- A JSON scalar as decoded by `json.loads` in `word_validator.py`.  Only the
shapes the validator inspects are represented. -/
inductive JVal where
  | jBool (b : Bool)
  | jInt (n : Int)
  | jStr (s : String)
  | jNull
  deriving DecidableEq, Repr

/-- Python `isinstance(x, bool)`. -/
def pyIsBool : JVal → Bool
  | JVal.jBool _ => true
  | _ => false

/-- Python `isinstance(x, int)`.  Note `bool` is a subclass of `int` in Python,
so a JSON boolean also passes this check. -/
def pyIsInt : JVal → Bool
  | JVal.jInt _ => true
  | JVal.jBool _ => true
  | _ => false

/-- The integer value of a Python object known to pass `isinstance(x, int)`
(`True` is 1 and `False` is 0). -/
def pyIntOf : JVal → Int
  | JVal.jInt n => n
  | JVal.jBool b => if b then 1 else 0
  | _ => 0

/-- Python truthiness of an `int | None` value: `None` and `0` are falsy. -/
def pyTruthyOptInt : Option Int → Bool
  | none => false
  | some n => n != 0

/-- Python `str(x)` for an `int | None` value (`str(None) = "None"`). -/
def pyStrOfOptInt : Option Int → String
  | some n => toString n
  | none => "None"

/-- Python `x or default` for an optional string (both `None` and `""` are
falsy, so they fall through to the default). -/
def pyOrStr (o : Option String) (dflt : String) : String :=
  match o with
  | some s => if s == "" then dflt else s
  | none => dflt

/-- ASCII lower-casing of one character, the effect of Python `str.lower` on
the game's word strings. -/
def pyLowerChar (c : Char) : Char :=
  if 'A' ≤ c ∧ c ≤ 'Z' then Char.ofNat (c.toNat + 32) else c

/-- Whitespace test used by Python `str.strip` (ASCII whitespace; the game's
words never carry the exotic unicode spaces). -/
def pyCharIsSpace (c : Char) : Bool :=
  c == ' ' || c == '\t' || c == '\n' || c == '\r'

/-- Python `s.lower()`, modelled character-wise over the string's characters
(kernel-computable, unlike `String.toLower`). -/
def py_lower (s : String) : String := ⟨s.data.map pyLowerChar⟩

/-- Python `s.strip()`: drop leading and trailing whitespace. -/
def py_strip (s : String) : String :=
  ⟨((s.data.dropWhile pyCharIsSpace).reverse.dropWhile pyCharIsSpace).reverse⟩

/-- A payload scalar in an outbound event dictionary. -/
inductive PVal where
  | vStr (s : String)
  | vInt (n : Int)
  | vBool (b : Bool)
  | vNone
  deriving DecidableEq, Repr

/-- Payload value for an `int | None` field sent as-is. -/
def pvOfOptInt : Option Int → PVal
  | some n => PVal.vInt n
  | none => PVal.vNone

namespace settings

/-- `app/core/config.py` line 42: `MAX_MISTAKES: int = 3`. -/
def MAX_MISTAKES : Int := 3

/-- `app/core/config.py` line 43: `GAME_MAX_ROUNDS: int = 3`. -/
def GAME_MAX_ROUNDS : Int := 3

/-- `app/core/config.py` line 44: `DEFAULT_TURN_DURATION_SECONDS: int = 30`. -/
def DEFAULT_TURN_DURATION_SECONDS : Int := 30

end settings

/-- `app/models/enums.py`: `RoundEndReason`. -/
inductive RoundEndReason where
  | REPEATED_WORD_MAX_MISTAKES
  | INVALID_WORD_MAX_MISTAKES
  | TIMEOUT_MAX_MISTAKES
  | DOUBLE_TIMEOUT
  | OPPONENT_DISCONNECTED
  | MAX_ROUNDS_REACHED_OR_SCORE_LIMIT
  | UNKNOWN
  deriving DecidableEq, Repr

/-- The `.value` of each `RoundEndReason` member. -/
def RoundEndReason.value : RoundEndReason → String
  | REPEATED_WORD_MAX_MISTAKES => "repeated_word_max_mistakes"
  | INVALID_WORD_MAX_MISTAKES => "invalid_word_max_mistakes"
  | TIMEOUT_MAX_MISTAKES => "timeout_max_mistakes"
  | DOUBLE_TIMEOUT => "double_timeout"
  | OPPONENT_DISCONNECTED => "opponent_disconnected"
  | MAX_ROUNDS_REACHED_OR_SCORE_LIMIT => "max_rounds_reached_or_score_limit"
  | UNKNOWN => "unknown"

/-- `app/models/game.py`: `SentencePromptPublic`. -/
structure SentencePromptPublic where
  id : Int
  sentence_text : String
  target_word : String
  prompt_text : String
  difficulty : Int := 1
  language : String := "en"
  deriving DecidableEq, Repr

/-- `app/models/game.py`: `GameStatePlayer`.  Note the model has NO `level`
field; the `level=...` keyword passed by `matchmaking_service` is silently
dropped by Pydantic (default `extra="ignore"`). -/
structure GameStatePlayer where
  id : Int
  name : String
  score : Int := 0
  mistakes_in_current_round : Int := 0
  words_played : List String := []
  is_bot : Bool := false
  deriving DecidableEq, Repr

/-- `app/models/game.py`: `GameState`.  The `players` dict is modelled as an
association list from player id to `GameStatePlayer` (cardinality 2 in every
reachable state).  Note the model has NO `is_bot_game` field: the keyword
passed by `matchmaking_service.create_bot_match` is dropped by Pydantic, and
reading `current_game_state.is_bot_game` in `game_service.py` line 285 raises
`AttributeError`. -/
structure GameState where
  game_id : String
  db_game_id : Option Int := none
  language : String := "en"
  players : List (Int × GameStatePlayer)
  current_player_id : Option Int := none
  current_round : Int := 1
  max_rounds : Int := 3
  sentence_prompt : Option SentencePromptPublic := none
  words_played_this_round_all : List String := []
  is_waiting_for_opponent : Bool := false
  last_action_timestamp : Option Int := none
  consecutive_timeouts : Int := 0
  status : String := "starting"
  matchmaking_player_order : List Int := []
  winner_user_id : Option Int := none
  turn_duration_seconds : Int := 30
  ready_player_ids : List Int := []
  deriving DecidableEq, Repr

/-- Default player used only to totalise dictionary lookups; every reachable
session stores both players of `matchmaking_player_order`, so the default is
never read in the theorems below (their hypotheses pin the lookups). -/
def defaultPlayer : GameStatePlayer := { id := 0, name := "" }

/-- Python `players[pid]` lookup on the two-entry dict. -/
def lookupPlayer (ps : List (Int × GameStatePlayer)) (pid : Int) : Option GameStatePlayer :=
  (ps.find? (fun pr => pr.1 == pid)).map (fun pr => pr.2)

/-- Total version of `players[pid]` (see `defaultPlayer`). -/
def getPlayerD (gs : GameState) (pid : Int) : GameStatePlayer :=
  (lookupPlayer gs.players pid).getD defaultPlayer

/-- In-place mutation `players[pid].field = ...`, expressed as a map over the
association list. -/
def updatePlayer (ps : List (Int × GameStatePlayer)) (pid : Int)
    (f : GameStatePlayer → GameStatePlayer) : List (Int × GameStatePlayer) :=
  ps.map (fun pr => if pr.1 == pid then (pr.1, f pr.2) else pr)

/-- `app/models/validation.py`: `WordValidationResult`. -/
structure WordValidationResult where
  is_valid : Bool
  creativity_score : Option Int := none
  from_cache : Bool := false
  error_message : Option String := none
  deriving DecidableEq, Repr

/-- `app/services/game_service.py`: `GameEvent`.  The `payload` dict is
modelled as an association list of its scalar entries; the nested
`playerN_state` model dumps carried by `game_setup_ready` /
`new_round_started` payloads are omitted (no claim inspects them). -/
structure GameEvent where
  type : String
  payload : List (String × PVal)
  target_player_id : Option Int := none
  broadcast : Bool := false
  exclude_player_id : Option Int := none
  deriving DecidableEq, Repr

/-! ## Validation Oracle Client — `app/services/word_validator.py` -/

/-- A row of the `WordSubmission` table as read by the validator's cache query
(`sentence_prompt_id`, `submitted_word`, `is_valid`, `creativity_score`,
`submission_timestamp`).  The table is append-only; it is modelled as a list in
insertion order (oldest first), so "`ORDER BY submission_timestamp DESC` /
`first()`" is the last matching entry. -/
structure WordSubmissionRec where
  sentence_prompt_id : Int
  submitted_word : String
  is_valid : Bool
  creativity_score : Option Int := none
  submission_timestamp : Int := 0
  deriving DecidableEq, Repr

/-- The module-level `validation_stats` dict of `word_validator.py`. -/
structure ValidationStats where
  total_calls : Nat
  cache_hits : Nat
  deriving DecidableEq, Repr

/-- The parsed JSON judgment produced by the Gemini model-fallback loop
(`word_validator.py` lines 126-151), together with the measured wall-clock
latency of the whole loop.  The fields are raw JSON values because the source
sanitises their types afterwards; if every model rate-limits, the loop leaves
the defaults `is_valid = False` (a genuine `bool`), `creativity_score = None`
and a rate-limit reason, which the caller of this model passes in explicitly. -/
structure GeminiJudgment where
  is_valid : JVal
  creativity_score : JVal
  reason : String
  latency_ms : Int
  deriving DecidableEq, Repr

/-- SQL `LIKE` pattern matching, as PostgreSQL evaluates the `ILIKE`
expression SQLAlchemy generates for the cache query: `%` matches any
sequence, `_` matches any single character, and backslash (PostgreSQL's
default escape, no `ESCAPE` clause is emitted) makes the following pattern
character literal.  The player-supplied word is the PATTERN, so these
metacharacters are live for words containing `%`, `_` or `\x5c`.
A pattern ending in a lone escape character raises an error in PostgreSQL
(`LIKE pattern must not end with escape character`); it is modelled here as
matching nothing — no theorem below exercises that corner (their hypotheses
exclude escape characters, and the counterexample uses an interior
backslash).  The function is fuelled so that it is structurally recursive and
kernel-computable; every recursive call decreases `pattern.length + s.length`
by at least one while consuming one unit of fuel, so the initial fuel of
`likeMatch` strictly exceeds every measure reached and the fuel-exhausted
arm is unreachable. -/
def likeMatchFuel : Nat → List Char → List Char → Bool
  | 0, _, _ => false
  | _ + 1, [], s => s.isEmpty
  | n + 1, pc :: ps, s =>
    if pc == '%' then
      match s with
      | [] => likeMatchFuel n ps []
      | _ :: s2 => likeMatchFuel n ps s || likeMatchFuel n (pc :: ps) s2
    else if pc == '_' then
      match s with
      | [] => false
      | _ :: s2 => likeMatchFuel n ps s2
    else if pc == '\\' then
      match ps with
      | [] => false
      | pc2 :: ps2 =>
        match s with
        | [] => false
        | c :: s2 => pc2 == c && likeMatchFuel n ps2 s2
    else
      match s with
      | [] => false
      | c :: s2 => pc == c && likeMatchFuel n ps s2

/-- SQL LIKE matching of a string against a pattern (see `likeMatchFuel`). -/
def likeMatch (pattern s : List Char) : Bool :=
  likeMatchFuel (pattern.length + s.length + 1) pattern s

/-- A word free of the SQL LIKE metacharacters `%`, `_` and backslash: for
such words the `ilike` cache lookup degenerates to case-insensitive
equality.  Every ordinary game word is of this shape. -/
def isLiteralWord (w : String) : Bool :=
  w.data.all (fun c => c != '%' && c != '_' && c != '\\')

/-- The SQL cache query of `word_validator.py` lines 57-65: the latest
`WordSubmission` row with the same `sentence_prompt_id` whose `submitted_word`
matches the `ilike` pattern `word_lower`.  `ilike` is case-insensitive SQL
LIKE: both sides are lower-cased and the (player-controlled) pattern keeps
its `%` / `_` wildcards and backslash escapes (see `likeMatchFuel`).  Because
the list is in insertion order, "latest" is the last match, i.e. the first
match of the reversed list. -/
def latestMatchingSubmission (db : List WordSubmissionRec) (sentence_prompt_id : Int)
    (word_lower : String) : Option WordSubmissionRec :=
  db.reverse.find? (fun rec =>
    rec.sentence_prompt_id == sentence_prompt_id &&
      likeMatch (py_lower word_lower).data (py_lower rec.submitted_word).data)

/-- The sanitisation block of `word_validator.py` lines 156-184, applied to the
raw judgment fields.  Returns the final `(is_valid, creativity_score, reason)`
triple.  The interpolated Python type names inside the augmented reasons are
abbreviated to a fixed marker; no claim inspects the reason text. -/
def sanitize_gemini_judgment (gv0 gc0 : JVal) (reason0 : String) : Bool × Int × String :=
  -- lines 160-164: if not isinstance(gemini_is_valid, bool): downgrade
  let step1 : Bool × JVal × String :=
    if pyIsBool gv0 then
      (gv0 == JVal.jBool true, gc0, reason0)
    else
      (false, JVal.jInt 0,
        "Validation Error: Gemini output is_valid was missing or not a boolean. Original reason: "
          ++ reason0)
  let gv := step1.1
  -- lines 167-173: if not isinstance(gemini_creativity_score, int): default it
  let step2 : Int × String :=
    if pyIsInt step1.2.1 then
      (pyIntOf step1.2.1, step1.2.2)
    else
      ((if gv then 1 else 0),
        "Validation Error: Gemini output creativity_score was missing or not an integer. Original reason: "
          ++ step1.2.2)
  let gc := step2.1
  let reason := step2.2
  -- lines 176-184: adjust creativity_score based on validity
  if gv then
    if 1 ≤ gc ∧ gc ≤ 5 then (gv, gc, reason)
    else (gv, 1, reason ++ " (Note: creativity_score was out of range 1-5 for a valid word. Clamping to 1.)")
  else
    if gc != 0 then (gv, 0, reason ++ " (Note: Word is invalid; setting creativity_score to 0.)")
    else (gv, gc, reason)

/-- Everything `validate_word_against_prompt` communicates to its caller and to
the process: the `WordValidationResult`, the returned latency, the updated
module counters, and whether the external oracle was actually invoked. -/
structure ValidateOutcome where
  result : WordValidationResult
  latency_ms : Int
  stats : ValidationStats
  oracle_called : Bool
  deriving DecidableEq, Repr

/-- `word_validator.py`: `validate_word_against_prompt` (cache-first path plus
the Gemini branch with its sanitisation), with the database table, the module
counters and the parsed oracle judgment made explicit.  The
`GEMINI_API_KEY` is assumed configured (the unconfigured early return is dead
in a deployed process). -/
def validate_word_against_prompt (db : List WordSubmissionRec) (stats : ValidationStats)
    (word : String) (sentence_prompt_id : Int) (judgment : GeminiJudgment) :
    ValidateOutcome :=
  -- line 52: validation_stats["total_calls"] += 1
  let stats1 : ValidationStats := { stats with total_calls := stats.total_calls + 1 }
  -- line 54: word_lower = word.strip().lower()
  let word_lower := py_lower (py_strip word)
  -- lines 57-74: cache lookup; on a hit, bump cache_hits and return stored row
  match latestMatchingSubmission db sentence_prompt_id word_lower with
  | some previous_submission =>
      { result :=
          { is_valid := previous_submission.is_valid
            creativity_score := previous_submission.creativity_score
            from_cache := true }
        latency_ms := 0
        stats := { stats1 with cache_hits := stats1.cache_hits + 1 }
        oracle_called := false }
  | none =>
      -- lines 126-210: Gemini loop (outcome given as `judgment`) + sanitisation
      let s := sanitize_gemini_judgment judgment.is_valid judgment.creativity_score judgment.reason
      { result :=
          { is_valid := s.1
            creativity_score := some s.2.1
            from_cache := false
            error_message := if s.1 then none else some s.2.2 }
        latency_ms := judgment.latency_ms
        stats := stats1
        oracle_called := true }

/-- One validation request as issued by the session layer: the (already
normalised by `game_service`) word, the prompt id, and the oracle judgment
that the LLM would return if consulted. -/
structure VQuery where
  word : String
  prompt_id : Int
  judgment : GeminiJudgment
  deriving DecidableEq, Repr

/-- The record `game_service.process_player_game_action` logs after a
non-cache validation (`crud_game_log.log_word_submission`, lines 367-379):
`submitted_word` is the word it passed to the validator. -/
def loggedSubmission (q : VQuery) (res : WordValidationResult) (t : Int) : WordSubmissionRec :=
  { sentence_prompt_id := q.prompt_id
    submitted_word := q.word
    is_valid := res.is_valid
    creativity_score := res.creativity_score
    submission_timestamp := t }

/-- A sequential run of validation requests in which, exactly as in
`process_player_game_action`, every non-cache result is appended to the
`WordSubmission` table.  Returns the list of `(prompt_id, word_lower)` keys for
which the external oracle was actually invoked, in order. -/
def oracleCallKeys : List VQuery → List WordSubmissionRec → Int → List (Int × String)
  | [], _, _ => []
  | q :: qs, db, t =>
      if (validate_word_against_prompt db { total_calls := 0, cache_hits := 0 }
            q.word q.prompt_id q.judgment).result.from_cache then
        oracleCallKeys qs db t
      else
        (q.prompt_id, py_lower (py_strip q.word)) ::
          oracleCallKeys qs
            (db ++ [loggedSubmission q
              (validate_word_against_prompt db { total_calls := 0, cache_hits := 0 }
                q.word q.prompt_id q.judgment).result t])
            (t + 1)

/-! ## Session State Machine — `app/services/game_service.py` -/

/-- The inbound `action_payload` dict, restricted to the keys the handler
reads (`word` for `submit_word`, `emoji` for `send_emoji`). -/
structure ActionPayload where
  word : Option String := none
  emoji : Option String := none
  deriving DecidableEq, Repr

/-- Python truthiness of a `str | None` value (`None` and `""` are falsy). -/
def pyTruthyOptStr : Option String → Bool
  | none => false
  | some s => s != ""

/-- `game_service.py` line 175: `_determine_next_player`. -/
def determine_next_player (current_player_id p1_id p2_id : Int) : Int :=
  if current_player_id == p1_id then p2_id else p1_id

/-- `game_service.py` lines 178-242: `_prepare_next_round`.  The Content
Provider's random prompt fetch is the `newPrompt` parameter (`none` models an
empty `sentenceprompts` table for the language, the `error_content_load`
path).  The nested `playerN_state` dump entries of the broadcast payload are
omitted (see `GameEvent`). -/
def prepare_next_round (gs : GameState) (round_winner_of_previous_round : Option Int)
    (previous_round_end_reason : RoundEndReason) (newPrompt : Option SentencePromptPublic)
    (now : Int) : GameState × List GameEvent :=
  let gs1 := { gs with current_round := gs.current_round + 1 }
  match newPrompt with
  | none =>
      ({ gs1 with status := "error_content_load" },
        [{ type := "error_message_broadcast"
           payload := [("message", PVal.vStr
             ("Failed to load game content for language " ++ gs1.language ++ " for the new round."))]
           broadcast := true }])
  | some new_sentence =>
      let gs2 := { gs1 with sentence_prompt := some new_sentence }
      let p1_id := gs2.matchmaking_player_order.getD 0 0
      let p2_id := gs2.matchmaking_player_order.getD 1 0
      let resetPlayers :=
        updatePlayer
          (updatePlayer gs2.players p1_id
            (fun p => { p with mistakes_in_current_round := 0, words_played := [] }))
          p2_id (fun p => { p with mistakes_in_current_round := 0, words_played := [] })
      let next_starter := if Int.emod gs2.current_round 2 == 1 then p1_id else p2_id
      let gs3 := { gs2 with
        players := resetPlayers
        words_played_this_round_all := []
        current_player_id := some next_starter
        ready_player_ids := []
        last_action_timestamp := some now
        status := "waiting_for_ready" }
      (gs3,
        [{ type := "new_round_started"
           payload :=
             [("round_winner_id", PVal.vStr (pyStrOfOptInt round_winner_of_previous_round)),
              ("previous_round_end_reason", PVal.vStr previous_round_end_reason.value),
              ("new_round_number", PVal.vInt gs3.current_round),
              ("player1_server_id", PVal.vStr (toString p1_id)),
              ("player2_server_id", PVal.vStr (toString p2_id)),
              ("current_sentence", PVal.vStr new_sentence.sentence_text),
              ("prompt", PVal.vStr new_sentence.prompt_text),
              ("word_to_replace", PVal.vStr new_sentence.target_word),
              ("current_player_id", PVal.vStr (toString next_starter)),
              ("game_active", PVal.vBool false),
              ("last_action_timestamp", PVal.vInt now),
              ("turn_duration_seconds", PVal.vInt gs3.turn_duration_seconds),
              ("game_status", PVal.vStr gs3.status)]
           broadcast := true }])

/-- `game_service.py` lines 487-593: `_handle_round_or_game_end`.  XP grants
and score persistence are best-effort database calls, modelled as no-ops; the
prompt fetch of the next-round path is the `newPrompt` parameter.  The
`if round_winner_id and round_loser_id` guard uses Python truthiness (a
player id of 0 would be falsy), modelled by `pyTruthyOptInt`. -/
def handle_round_or_game_end (gs : GameState) (round_loser_id : Option Int)
    (reason : RoundEndReason) (newPrompt : Option SentencePromptPublic) (now : Int) :
    GameState × List GameEvent :=
  -- line 506: consecutive timeouts reset on any round end
  let gs1 := { gs with consecutive_timeouts := 0 }
  let p1_id := gs1.matchmaking_player_order.getD 0 0
  let p2_id := gs1.matchmaking_player_order.getD 1 0
  -- lines 511-513: the round winner is the other player, when there is a loser
  let round_winner_id : Option Int :=
    match round_loser_id with
    | none => none
    | some l => some (if l == p2_id then p1_id else p2_id)
  -- lines 515-521: score increment for the winner (XP grants are no-ops here)
  let gs2 :=
    if pyTruthyOptInt round_winner_id && pyTruthyOptInt round_loser_id then
      { gs1 with
        players :=
          updatePlayer gs1.players (round_winner_id.getD 0)
            (fun p => { p with score := p.score + 1 }) }
    else gs1
  let p1_score := (getPlayerD gs2 p1_id).score
  let p2_score := (getPlayerD gs2 p2_id).score
  -- lines 540-542: game over iff a score reaches floor(max_rounds / 2) + 1
  -- or the current round has reached max_rounds
  let rounds_needed_to_win := Int.fdiv gs2.max_rounds 2 + 1
  let game_is_over := p1_score ≥ rounds_needed_to_win || p2_score ≥ rounds_needed_to_win
    || gs2.current_round ≥ gs2.max_rounds
  if game_is_over then
    let final_winner_id : Option Int :=
      if p1_score > p2_score then some p1_id
      else if p2_score > p1_score then some p2_id
      else none
    let gs3 := { gs2 with status := "finished", winner_user_id := final_winner_id }
    -- lines 576-578: reason rewriting for the game_over broadcast
    let game_over_reason :=
      if reason != RoundEndReason.DOUBLE_TIMEOUT && reason != RoundEndReason.OPPONENT_DISCONNECTED
      then RoundEndReason.MAX_ROUNDS_REACHED_OR_SCORE_LIMIT else reason
    (gs3,
      [{ type := "game_over"
         payload :=
           [("game_winner_id",
              if pyTruthyOptInt final_winner_id then PVal.vStr (pyStrOfOptInt final_winner_id)
              else PVal.vNone),
            ("player1_server_id", PVal.vStr (toString p1_id)),
            ("player2_server_id", PVal.vStr (toString p2_id)),
            ("player1_final_score", PVal.vInt p1_score),
            ("player2_final_score", PVal.vInt p2_score),
            ("reason", PVal.vStr game_over_reason.value)]
         broadcast := true }])
  else
    prepare_next_round gs2 round_winner_id reason newPrompt now

/-- `game_service.py` lines 245-485: `process_player_game_action`.  The
validator call of the `submit_word` branch is the pair
`(validation_result, gemini_latency)` — the return value of
`validate_word_against_prompt` (embedded above) for the session's submission
table and current prompt.  Database logging (`log_word_submission`,
`log_daily_active_user`, `increment_user_words_count`,
`increment_emojis_sent`) is a no-op on the session.  `now` is `time.time()`.
`Except.error` models a raised Python exception: lines 352 and 416 access the
nonexistent enum members `RoundEndReason.REPEATED_WORD_settings` and
`RoundEndReason.INVALID_WORD_settings` (an `AttributeError`), and line 285
reads the nonexistent `GameState.is_bot_game` field. -/
def process_player_game_action (gs : GameState) (acting_player_id : Int)
    (action_type : String) (action_payload : ActionPayload)
    (validation_result : WordValidationResult) (gemini_latency : Int)
    (newPrompt : Option SentencePromptPublic) (now : Int) :
    Except PyErr (GameState × List GameEvent) :=
  let _ := gemini_latency  -- only forwarded to best-effort logging in the source
  let p1_id := gs.matchmaking_player_order.getD 0 0
  let p2_id := gs.matchmaking_player_order.getD 1 0
  let is_acting_players_turn := gs.current_player_id == some acting_player_id
  if action_type == "client_ready" then
    if gs.status != "waiting_for_ready" then Except.ok (gs, [])
    else
      let ready' :=
        if gs.ready_player_ids.contains acting_player_id then gs.ready_player_ids
        else gs.ready_player_ids ++ [acting_player_id]
      let gs1 := { gs with ready_player_ids := ready' }
      -- line 285: `len(... ) == 1 and current_game_state.is_bot_game` — the
      -- conjunct short-circuits unless the ready count is 1, in which case the
      -- missing `is_bot_game` field raises AttributeError
      if ready'.length == 1 then Except.error (PyErr.attributeError "is_bot_game")
      else if ready'.length == gs1.players.length then
        let starter := if Int.emod gs1.current_round 2 == 1 then p1_id else p2_id
        let gs2 := { gs1 with
          status := "in_progress"
          current_player_id := some starter
          last_action_timestamp := some now }
        Except.ok (gs2,
          [{ type := "round_started"
             payload :=
               [("game_id", PVal.vStr gs2.game_id),
                ("round", PVal.vInt gs2.current_round),
                ("current_player_id", PVal.vStr (toString starter)),
                ("last_action_timestamp", PVal.vInt now),
                ("turn_duration_seconds", PVal.vInt gs2.turn_duration_seconds)]
             broadcast := true }])
      else Except.ok (gs1, [])
  else if action_type == "submit_word" then
    if !is_acting_players_turn then
      Except.ok (gs,
        [{ type := "error_message_to_player"
           payload := [("message", PVal.vStr "Not your turn.")]
           target_player_id := some acting_player_id }])
    else
      -- line 313: word = action_payload.get("word", "").strip().lower()
      let word := py_lower (py_strip (action_payload.word.getD ""))
      -- line 316: last_action_timestamp = time.time()
      let gs1 := { gs with last_action_timestamp := some now }
      if word == "" then
        Except.ok (gs1,
          [{ type := "validation_result"
             payload :=
               [("word", PVal.vStr word),
                ("is_valid", PVal.vBool false),
                ("message", PVal.vStr "Word cannot be empty.")]
             target_player_id := some acting_player_id }])
      else if gs1.words_played_this_round_all.contains word then
        -- lines 334-356: repeated word is a mistake
        let gs2 := { gs1 with
          players := updatePlayer gs1.players acting_player_id
            (fun p => { p with mistakes_in_current_round := p.mistakes_in_current_round + 1 })
          last_action_timestamp := some now }
        let mistakes := (getPlayerD gs2 acting_player_id).mistakes_in_current_round
        let events :=
          [{ type := "validation_result"
             payload :=
               [("word", PVal.vStr word),
                ("is_valid", PVal.vBool false),
                ("message", PVal.vStr "Word already played. Mistake!")]
             target_player_id := some acting_player_id : GameEvent }]
        if mistakes ≥ settings.MAX_MISTAKES then
          -- line 352: `RoundEndReason.REPEATED_WORD_settings.MAX_MISTAKES` —
          -- the enum has no member `REPEATED_WORD_settings`
          Except.error (PyErr.attributeError "REPEATED_WORD_settings")
        else Except.ok (gs2, events)
      else if validation_result.is_valid then
        -- lines 381-404: accepted word; original-cased word is appended
        let original_word := action_payload.word.getD ""
        let gs2 := { gs1 with
          players := updatePlayer gs1.players acting_player_id
            (fun p => { p with words_played := p.words_played ++ [original_word] })
          words_played_this_round_all := gs1.words_played_this_round_all ++ [word] }
        let next_player_id := determine_next_player acting_player_id p1_id p2_id
        let gs3 := { gs2 with current_player_id := some next_player_id }
        Except.ok (gs3,
          [{ type := "validation_result"
             payload :=
               [("word", PVal.vStr original_word),
                ("is_valid", PVal.vBool true),
                ("creativity_score", pvOfOptInt validation_result.creativity_score)]
             target_player_id := some acting_player_id },
           { type := "opponent_turn_ended"
             payload :=
               [("opponent_player_id", PVal.vStr (toString acting_player_id)),
                ("opponent_played_word", PVal.vStr original_word),
                ("creativity_score", pvOfOptInt validation_result.creativity_score),
                ("current_player_id", PVal.vStr (toString next_player_id)),
                ("game_id", PVal.vStr gs3.game_id),
                ("game_active", PVal.vBool true),
                ("last_action_timestamp", PVal.vInt now)]
             target_player_id := some next_player_id }])
      else
        -- lines 405-417: invalid word is a mistake
        let gs2 := { gs1 with
          players := updatePlayer gs1.players acting_player_id
            (fun p => { p with mistakes_in_current_round := p.mistakes_in_current_round + 1 }) }
        let mistakes := (getPlayerD gs2 acting_player_id).mistakes_in_current_round
        let other_player_id := determine_next_player acting_player_id p1_id p2_id
        let events :=
          [{ type := "validation_result"
             payload :=
               [("word", PVal.vStr word),
                ("is_valid", PVal.vBool false),
                ("message", PVal.vStr (pyOrStr validation_result.error_message "Not valid. Mistake!")),
                ("creativity_score", pvOfOptInt validation_result.creativity_score)]
             target_player_id := some acting_player_id : GameEvent },
           { type := "opponent_mistake"
             payload :=
               [("player_id", PVal.vStr (toString acting_player_id)),
                ("mistakes", PVal.vInt mistakes)]
             target_player_id := some other_player_id }]
        if mistakes ≥ settings.MAX_MISTAKES then
          -- line 416: `RoundEndReason.INVALID_WORD_settings.MAX_MISTAKES`
          Except.error (PyErr.attributeError "INVALID_WORD_settings")
        else Except.ok (gs2, events)
  else if action_type == "timeout" then
    if !is_acting_players_turn then
      -- lines 423-425: out-of-turn timeout is ignored with NO event
      Except.ok (gs, [])
    else
      -- lines 428-432
      let gs1 := { gs with
        consecutive_timeouts := gs.consecutive_timeouts + 1
        players := updatePlayer gs.players acting_player_id
          (fun p => { p with mistakes_in_current_round := p.mistakes_in_current_round + 1 })
        last_action_timestamp := some now }
      let mistakes := (getPlayerD gs1 acting_player_id).mistakes_in_current_round
      if gs1.consecutive_timeouts ≥ 2 then
        -- lines 434-451: double timeout; loser is the player with fewer words
        let p1_words := (getPlayerD gs1 p1_id).words_played.length
        let p2_words := (getPlayerD gs1 p2_id).words_played.length
        let determined_round_loser_id : Option Int :=
          if p1_words > p2_words then some p2_id
          else if p2_words > p1_words then some p1_id
          else none
        Except.ok (handle_round_or_game_end gs1 determined_round_loser_id
          RoundEndReason.DOUBLE_TIMEOUT newPrompt now)
      else if mistakes ≥ settings.MAX_MISTAKES then
        Except.ok (handle_round_or_game_end gs1 (some acting_player_id)
          RoundEndReason.TIMEOUT_MAX_MISTAKES newPrompt now)
      else
        let next_player_id := determine_next_player acting_player_id p1_id p2_id
        let gs2 := { gs1 with current_player_id := some next_player_id }
        Except.ok (gs2,
          [{ type := "timeout"
             payload :=
               [("player_id", PVal.vStr (toString acting_player_id)),
                ("current_player_id", PVal.vStr (toString next_player_id)),
                ("game_id", PVal.vStr gs2.game_id),
                ("game_active", PVal.vBool true),
                ("last_action_timestamp", PVal.vInt now)]
             broadcast := true }])
  else if action_type == "send_emoji" then
    if pyTruthyOptStr action_payload.emoji then
      let next_player_id := determine_next_player acting_player_id p1_id p2_id
      Except.ok (gs,
        [{ type := "emoji_broadcast"
           payload :=
             [("emoji", PVal.vStr (action_payload.emoji.getD "")),
              ("sender_id", PVal.vStr (toString acting_player_id))]
           target_player_id := some next_player_id }])
    else Except.ok (gs, [])
  else
    Except.ok (gs,
      [{ type := "error_message_to_player"
         payload := [("message", PVal.vStr ("Unknown action type: " ++ action_type))]
         target_player_id := some acting_player_id }])

/-- `game_service.py` lines 596-673: `handle_player_disconnect`.  XP grant and
`finalize_game_record` are best-effort database calls (no-ops here). -/
def handle_player_disconnect (gs : GameState) (disconnected_player_id : Int) :
    GameState × List GameEvent :=
  -- lines 609-611: only live statuses run the disconnect logic
  if gs.status != "in_progress" && gs.status != "waiting_for_ready" then (gs, [])
  else
    let p1_id := gs.matchmaking_player_order.getD 0 0
    let p2_id := gs.matchmaking_player_order.getD 1 0
    let forfeit_winner_id := if disconnected_player_id == p2_id then p1_id else p2_id
    let gs1 := { gs with
      status := "abandoned_by_player"
      winner_user_id := some forfeit_winner_id }
    let p1_final_score := (getPlayerD gs1 p1_id).score
    let p2_final_score := (getPlayerD gs1 p2_id).score
    let winner_str :=
      if forfeit_winner_id != 0 then PVal.vStr (toString forfeit_winner_id) else PVal.vNone
    let events :=
      (if forfeit_winner_id != 0 && forfeit_winner_id != disconnected_player_id then
        [{ type := "player_disconnected_inform"
           payload :=
             [("player_id", PVal.vStr (toString disconnected_player_id)),
              ("message", PVal.vStr "Opponent disconnected. You win by forfeit."),
              ("game_winner_id", winner_str)]
           target_player_id := some forfeit_winner_id : GameEvent }]
      else []) ++
      (if forfeit_winner_id != 0 && forfeit_winner_id != disconnected_player_id then
        [{ type := "game_over"
           payload :=
             [("game_winner_id", winner_str),
              ("player1_server_id", PVal.vStr (toString p1_id)),
              ("player2_server_id", PVal.vStr (toString p2_id)),
              ("player1_final_score", PVal.vInt p1_final_score),
              ("player2_final_score", PVal.vInt p2_final_score),
              ("reason", PVal.vStr RoundEndReason.OPPONENT_DISCONNECTED.value)]
           target_player_id := some forfeit_winner_id : GameEvent }]
      else [])
    (gs1, events)

/-! ## Matchmaking bot pairing — `app/services/matchmaking_service.py` and
the age-out sweep of `app/main.py` -/

/-- `app/models/user.py`: `UserPublic`, restricted to the fields the embedded
matchmaking code reads or writes (`id`, `username`, `level`, `is_bot`,
`profile_pic_url`); the remaining profile fields are never consulted by
`create_bot_match` or the sweep. -/
structure UserPublic where
  id : Int
  username : Option String := none
  level : Int := 1
  is_bot : Bool := false
  profile_pic_url : Option String := none
  deriving DecidableEq, Repr

/-- `app/api/matchmaking.py`: `MatchmakingStatusResponse`.  Note the model has
NO `opponent_profile_pic_url` field: the keyword passed at `app/main.py` line
88 is dropped by Pydantic (default `extra="ignore"`). -/
structure MatchmakingStatusResponse where
  status : String
  game_id : Option String := none
  language : Option String := none
  opponent_name : Option String := none
  opponent_level : Option Int := none
  player1_id : Option Int := none
  player2_id : Option Int := none
  your_player_id_in_game : Option Int := none
  deriving DecidableEq, Repr

/-- `matchmaking_service.py` lines 102-147: `create_bot_match`.  The random
draws are explicit parameters: `bot_name` is the `random.choice` from the
per-language list, `d` is `random.randint(-5, 5)`, and `bot_first` is the
`random.sample` order.  The bot user template comes from
`crud_user.get_or_create_bot_user`.  Two Pydantic-dropped keywords are
modelled faithfully: `GameStatePlayer` has no `level` field, so the
`level=player.level` / `level=bot_level` arguments vanish, and `GameState` has
no `is_bot_game` field, so `is_bot_game=True` vanishes.  Returns the created
`GameState` and the customised `bot_game_user` exactly as the source does;
`bot_level` is also returned so the theorems can speak about the discarded
local. -/
def create_bot_match (player : UserPublic) (lang : String)
    (bot_user_template : UserPublic) (bot_name : String) (d : Int) (bot_first : Bool)
    (game_uuid_hex : String) (now : Int) : GameState × UserPublic × Int :=
  -- lines 114-116: clone the template, randomise the name, draw the level
  let bot_game_user := { bot_user_template with username := some bot_name }
  let bot_level := max (player.level + d) 1
  let game_id := "game_" ++ game_uuid_hex
  -- lines 121-128: per-game player states (the `level=` keywords are dropped
  -- by Pydantic because GameStatePlayer declares no such field)
  let human_gs_player : GameStatePlayer :=
    { id := player.id
      name := (player.username.getD ("Player " ++ toString player.id))
      is_bot := false
      score := 0
      mistakes_in_current_round := 0
      words_played := [] }
  let bot_gs_player : GameStatePlayer :=
    { id := bot_game_user.id
      name := bot_name
      is_bot := true
      score := 0
      mistakes_in_current_round := 0
      words_played := [] }
  -- line 131: random.sample randomises who goes first
  let players_in_order :=
    if bot_first then [bot_game_user.id, player.id] else [player.id, bot_game_user.id]
  let gs : GameState :=
    { game_id := game_id
      language := lang
      players := [(player.id, human_gs_player), (bot_game_user.id, bot_gs_player)]
      status := "matched"
      last_action_timestamp := some now
      matchmaking_player_order := players_in_order }
  (gs, bot_game_user, bot_level)

/-- `app/main.py` lines 83-93: the matchmaking age-out sweep's update of
`player_match_status[player.id]` after `create_bot_match` returns.  Its
`opponent_level` is `bot_user.level` — the customised template clone, whose
`level` field `create_bot_match` never changed. -/
def bot_check_match_status (player : UserPublic) (lang : String) (game_id : String)
    (bot_user : UserPublic) (gs : GameState) : MatchmakingStatusResponse :=
  { status := "matched"
    game_id := some game_id
    language := some lang
    opponent_name := bot_user.username
    player1_id := some (gs.matchmaking_player_order.getD 0 0)
    player2_id := some (gs.matchmaking_player_order.getD 1 0)
    your_player_id_in_game := some player.id
    opponent_level := some bot_user.level }

/-! ## Helper lemmas about the two-entry player dictionary -/

lemma lookupPlayer_left (a b : Int) (pa pb : GameStatePlayer) :
    lookupPlayer [(a, pa), (b, pb)] a = some pa := by
  simp [lookupPlayer]

lemma lookupPlayer_right (a b : Int) (pa pb : GameStatePlayer) (hab : a ≠ b) :
    lookupPlayer [(a, pa), (b, pb)] b = some pb := by
  have hba : (a == b) = false := by simp [hab]
  simp [lookupPlayer, List.find?, hba]

lemma updatePlayer_left (a b : Int) (pa pb : GameStatePlayer)
    (f : GameStatePlayer → GameStatePlayer) (hab : a ≠ b) :
    updatePlayer [(a, pa), (b, pb)] a f = [(a, f pa), (b, pb)] := by
  simp [updatePlayer, hab, Ne.symm hab]

lemma updatePlayer_right (a b : Int) (pa pb : GameStatePlayer)
    (f : GameStatePlayer → GameStatePlayer) (hab : a ≠ b) :
    updatePlayer [(a, pa), (b, pb)] b f = [(a, pa), (b, f pb)] := by
  simp [updatePlayer, hab, Ne.symm hab]

/-! ## Shared concrete fixtures for witnesses and counterexamples -/

/-- A concrete prompt, the round content of the sample states below. -/
def samplePrompt : SentencePromptPublic :=
  { id := 1, sentence_text := "The fire was warm.", target_word := "warm",
    prompt_text := "Make it more extreme", difficulty := 1, language := "en" }

/-- Concrete player 1 of the sample session. -/
def sampleP1 : GameStatePlayer := { id := 1, name := "P1" }

/-- Concrete player 2 of the sample session. -/
def sampleP2 : GameStatePlayer := { id := 2, name := "P2" }

/-- A concrete in-progress two-player session at round 1, player 1 to act. -/
def sampleState : GameState :=
  { game_id := "g1", players := [(1, sampleP1), (2, sampleP2)],
    current_player_id := some 1, current_round := 1, max_rounds := 3,
    sentence_prompt := some samplePrompt, status := "in_progress",
    matchmaking_player_order := [1, 2], last_action_timestamp := some 100 }

/-- A validation result placeholder for branches that never consult the
validator (timeouts, duplicates, empty words). -/
def unusedValidation : WordValidationResult := { is_valid := false }

/-- Decidable equality for `Except`, so the concrete runs below can be settled
by evaluation. -/
instance {ε α : Type} [DecidableEq ε] [DecidableEq α] : DecidableEq (Except ε α) := fun x y =>
  match x, y with
  | Except.ok a, Except.ok b =>
      if h : a = b then isTrue (by rw [h]) else isFalse (by intro hc; injection hc; contradiction)
  | Except.error e, Except.error f =>
      if h : e = f then isTrue (by rw [h]) else isFalse (by intro hc; injection hc; contradiction)
  | Except.ok _, Except.error _ => isFalse (by intro hc; cases hc)
  | Except.error _, Except.ok _ => isFalse (by intro hc; cases hc)

/-! ## C3 — third repeated-word mistake -/

/-- The state right before the third duplicate submission: "hot" was already
played this round and the acting player already has two mistakes. -/
def c3State : GameState :=
  { sampleState with
    words_played_this_round_all := ["hot"]
    players := [(1, { sampleP1 with mistakes_in_current_round := 2 }), (2, sampleP2)] }

/-- C3.  In an in-progress session, when the acting player's `submit_word` of a
word already in `words_played_this_round_all` raises their mistake count to 3,
the handler does NOT complete the round-end: line 352 of `game_service.py`
evaluates `RoundEndReason.REPEATED_WORD_settings.MAX_MISTAKES`, and the enum
has no member `REPEATED_WORD_settings` (it is called
`REPEATED_WORD_MAX_MISTAKES`), so the transition raises `AttributeError`
instead of ending the round with reason `repeated_word_max_mistakes`.  The
validator argument is irrelevant: the duplicate branch never consults it. -/
theorem c3_third_repeated_word_raises_attribute_error :
    process_player_game_action c3State 1 "submit_word" { word := some "hot" }
        unusedValidation 0 none 200
      = Except.error (PyErr.attributeError "REPEATED_WORD_settings") := by
  decide

/-! ## C9 — bot level in bot matches -/

/-- The human player aged out of the queue: level 10. -/
def c9Human : UserPublic := { id := 7, username := some "alice", level := 10 }

/-- The singleton bot user record from the database (level 1). -/
def c9Template : UserPublic :=
  { id := 99, username := some "WordExtremist Bot", level := 1, is_bot := true }

/-- The bot match created by the age-out sweep with random draws
`d = +5` (so `uniform[-5, 5]` at its top) and human first. -/
def c9Match : GameState × UserPublic × Int :=
  create_bot_match c9Human "es" c9Template "Carlos" 5 false "abc123" 50

/-- The `/find` polling status the sweep stores for the human. -/
def c9Resp : MatchmakingStatusResponse :=
  bot_check_match_status c9Human "es" "game_abc123" c9Match.2.1 c9Match.1

/-- C9.  Evaluated at the failing input (human level 10, draw `d = 5`,
template level 1): `create_bot_match` computes `bot_level = max(1, 10 + 5) =
15`, but the customised `bot_game_user` it returns keeps the template's level
1 (only the username is changed), and the created session's player states
carry no level at all (`GameStatePlayer` has no `level` field, so the
`level=bot_level` keyword is dropped).  The polling response therefore reports
`opponent_level = 1`, which is outside `human.level ± 5 = [5, 15]`, instead of
the computed 15. -/
theorem c9_bot_level_dropped_and_template_level_reported :
    c9Match.2.2 = max 1 (c9Human.level + 5)
      ∧ c9Match.2.2 = 15
      ∧ c9Match.2.1.level = c9Template.level
      ∧ c9Resp.status = "matched"
      ∧ c9Resp.opponent_level = some 1
      ∧ ¬(c9Human.level - 5 ≤ 1 ∧ 1 ≤ c9Human.level + 5) := by
  decide

/-! ## C2 — creativity-score sanitisation for valid words -/

/-- C2 counterexample.  A cache-missing validation whose oracle judgment is
`{is_valid: true, creativity_score: 7}` returns creativity 1, not the clamp 5
the claim expects: `word_validator.py` line 179 sets any out-of-range score on
a valid word to 1. -/
theorem c2_creativity_seven_returns_one_counterexample :
    (validate_word_against_prompt [] { total_calls := 0, cache_hits := 0 } "hot" 1
        { is_valid := JVal.jBool true, creativity_score := JVal.jInt 7,
          reason := "ok", latency_ms := 123 }).result.is_valid = true
      ∧ (validate_word_against_prompt [] { total_calls := 0, cache_hits := 0 } "hot" 1
          { is_valid := JVal.jBool true, creativity_score := JVal.jInt 7,
            reason := "ok", latency_ms := 123 }).result.creativity_score = some 1
      ∧ (validate_word_against_prompt [] { total_calls := 0, cache_hits := 0 } "hot" 1
          { is_valid := JVal.jBool true, creativity_score := JVal.jInt 7,
            reason := "ok", latency_ms := 123 }).result.creativity_score ≠ some 5 := by
  decide

/-! ## C5 — out-of-turn actions -/

/-- C5 counterexample.  An out-of-turn `timeout` (player 2 while player 1 is to
act) leaves the session unchanged but emits NO event at all — in particular no
error event to the sender (`game_service.py` lines 423-425 log and return an
empty event list). -/
theorem c5_out_of_turn_timeout_silent_counterexample :
    process_player_game_action sampleState 2 "timeout" {} unusedValidation 0 none 200
      = Except.ok (sampleState, []) := by
  decide

/-! ## C6 — disconnect in a matched (pre-ready) session -/

/-- A session still in `matched`: both players paired, nobody ready yet. -/
def c6MatchedState : GameState :=
  { sampleState with status := "matched", current_player_id := none }

/-- C6 counterexample.  A disconnect while `status = "matched"` runs no
forfeit logic at all: `handle_player_disconnect` returns the state unchanged
(status still `matched`, no winner) and emits no event, because its guard only
admits `in_progress` and `waiting_for_ready`. -/
theorem c6_disconnect_in_matched_ignored_counterexample :
    handle_player_disconnect c6MatchedState 1 = (c6MatchedState, [])
      ∧ c6MatchedState.status = "matched"
      ∧ c6MatchedState.winner_user_id = none := by
  decide

/-! ## C1 — game-over threshold at round end -/

/-- A session at round 2 of 3 where player 1 already holds one round win. -/
def c1State : GameState :=
  { sampleState with
    current_round := 2
    players := [(1, { sampleP1 with score := 1 }), (2, sampleP2)] }

/-- C1 counterexample.  A round-end at round 2 of 3 that brings player 1's
score to 2 declares the game over (`status = "finished"`), although neither
score reaches ceil(3/2)+1 = 3 nor is `current_round ≥ 3`: the code's threshold
(`game_service.py` line 541) is `max_rounds // 2 + 1 = 2`, not 3. -/
theorem c1_score_two_ends_game_counterexample :
    (handle_round_or_game_end c1State (some 2) RoundEndReason.TIMEOUT_MAX_MISTAKES
        (some samplePrompt) 200).1.status = "finished"
      ∧ (getPlayerD (handle_round_or_game_end c1State (some 2)
          RoundEndReason.TIMEOUT_MAX_MISTAKES (some samplePrompt) 200).1 1).score = 2
      ∧ (getPlayerD (handle_round_or_game_end c1State (some 2)
          RoundEndReason.TIMEOUT_MAX_MISTAKES (some samplePrompt) 200).1 2).score = 0
      ∧ c1State.current_round = 2
      ∧ c1State.max_rounds = 3 := by
  decide

/-- C2 amended.  For every cache-missing validation whose oracle judgment has
`is_valid = true` (a genuine boolean) and an integer `creativity_score`
outside [1, 5], the client returns validity `true` with creativity score 1 —
the source sets any out-of-range score on a valid word to 1
(`word_validator.py` lines 177-179), it does not clamp to the nearest bound. -/
theorem c2_out_of_range_creativity_set_to_one
    (db : List WordSubmissionRec) (stats : ValidationStats) (word : String)
    (pid : Int) (j : GeminiJudgment) (c : Int)
    (hmiss : latestMatchingSubmission db pid (py_lower (py_strip word)) = none)
    (hv : j.is_valid = JVal.jBool true)
    (hc : j.creativity_score = JVal.jInt c)
    (hrange : ¬(1 ≤ c ∧ c ≤ 5)) :
    (validate_word_against_prompt db stats word pid j).result.is_valid = true
      ∧ (validate_word_against_prompt db stats word pid j).result.creativity_score = some 1
      ∧ (validate_word_against_prompt db stats word pid j).result.from_cache = false := by
  simp [validate_word_against_prompt, hmiss, sanitize_gemini_judgment, hv, hc,
    pyIsBool, pyIsInt, pyIntOf, hrange]

/-- Witness for `c2_out_of_range_creativity_set_to_one`: the raw score 0 on a
valid word over an empty submission table is also returned as 1. -/
theorem c2_out_of_range_creativity_set_to_one_witness :
    (validate_word_against_prompt [] { total_calls := 0, cache_hits := 0 } "sizzling" 4
        { is_valid := JVal.jBool true, creativity_score := JVal.jInt 0,
          reason := "r", latency_ms := 9 }).result.is_valid = true
      ∧ (validate_word_against_prompt [] { total_calls := 0, cache_hits := 0 } "sizzling" 4
          { is_valid := JVal.jBool true, creativity_score := JVal.jInt 0,
            reason := "r", latency_ms := 9 }).result.creativity_score = some 1
      ∧ (validate_word_against_prompt [] { total_calls := 0, cache_hits := 0 } "sizzling" 4
          { is_valid := JVal.jBool true, creativity_score := JVal.jInt 0,
            reason := "r", latency_ms := 9 }).result.from_cache = false :=
  c2_out_of_range_creativity_set_to_one [] { total_calls := 0, cache_hits := 0 } "sizzling" 4
    { is_valid := JVal.jBool true, creativity_score := JVal.jInt 0,
      reason := "r", latency_ms := 9 } 0 (by decide) rfl rfl (by decide)

/-- C5 amended.  For every in-progress session and action from a player who is
not the current player: `submit_word` leaves the state unchanged and emits an
error event to the sender, while `timeout` leaves the state unchanged and
emits NO event at all. -/
theorem c5_out_of_turn_handling
    (gs : GameState) (acting : Int) (payload : ActionPayload)
    (vres : WordValidationResult) (lat : Int) (np : Option SentencePromptPublic) (now : Int)
    (hstatus : gs.status = "in_progress")
    (hturn : gs.current_player_id ≠ some acting) :
    process_player_game_action gs acting "submit_word" payload vres lat np now
        = Except.ok (gs,
            [{ type := "error_message_to_player"
               payload := [("message", PVal.vStr "Not your turn.")]
               target_player_id := some acting }])
      ∧ process_player_game_action gs acting "timeout" payload vres lat np now
        = Except.ok (gs, []) := by
  have hbeq : (gs.current_player_id == some acting) = false := by
    simpa using hturn
  constructor <;> simp [process_player_game_action, hbeq]

/-- Witness for `c5_out_of_turn_handling`: player 2 acting while player 1 is
the current player of the sample session. -/
theorem c5_out_of_turn_handling_witness :
    process_player_game_action sampleState 2 "submit_word" {} unusedValidation 0 none 200
        = Except.ok (sampleState,
            [{ type := "error_message_to_player"
               payload := [("message", PVal.vStr "Not your turn.")]
               target_player_id := some 2 }])
      ∧ process_player_game_action sampleState 2 "timeout" {} unusedValidation 0 none 200
        = Except.ok (sampleState, []) :=
  c5_out_of_turn_handling sampleState 2 {} unusedValidation 0 none 200 (by decide) (by decide)

/-- C6 amended.  A disconnect runs the forfeit logic only when the session is
`in_progress` or `waiting_for_ready`: there the remaining player becomes the
winner and the status becomes `abandoned_by_player`; a disconnect while the
session is still `matched` (pre-ready) returns the state unchanged with no
events — it is NOT treated like an in-progress disconnect. -/
theorem c6_disconnect_forfeit_scope :
    (∀ (gs : GameState) (d : Int), gs.status = "matched" →
        handle_player_disconnect gs d = (gs, []))
      ∧ (∀ (gs : GameState) (a b d : Int),
          gs.status = "in_progress" ∨ gs.status = "waiting_for_ready" →
          gs.matchmaking_player_order = [a, b] →
          (handle_player_disconnect gs d).1.status = "abandoned_by_player"
            ∧ (handle_player_disconnect gs d).1.winner_user_id
                = some (if d == b then a else b)) := by
  constructor
  · intro gs d hm
    simp [handle_player_disconnect, hm]
  · intro gs a b d hstat hord
    rcases hstat with h | h <;> simp [handle_player_disconnect, h, hord]

/-- Witness for `c6_disconnect_forfeit_scope`: the matched sample session is
untouched by a disconnect, while the in-progress sample session forfeits to
player 2 when player 1 disconnects. -/
theorem c6_disconnect_forfeit_scope_witness :
    handle_player_disconnect c6MatchedState 2 = (c6MatchedState, [])
      ∧ ((handle_player_disconnect sampleState 1).1.status = "abandoned_by_player"
          ∧ (handle_player_disconnect sampleState 1).1.winner_user_id
              = some (if (1 : Int) == 2 then 1 else 2)) :=
  ⟨c6_disconnect_forfeit_scope.1 c6MatchedState 2 (by decide),
   c6_disconnect_forfeit_scope.2 sampleState 1 2 1 (Or.inl (by decide)) (by decide)⟩

/-- C10.  In an in-progress session, a `submit_word` from the current player
whose payload word normalises (strip + lower) to the empty string is rejected
with a single `validation_result(is_valid=false)` event targeted at the sender
only, and nothing else changes: the returned state is the input state with
only `last_action_timestamp` advanced (mistakes, scores, words, the round-wide
word set, `consecutive_timeouts` and `current_player_id` are untouched). -/
theorem c10_empty_word_rejected_without_mistake
    (gs : GameState) (acting : Int) (w : Option String)
    (vres : WordValidationResult) (lat : Int) (np : Option SentencePromptPublic) (now : Int)
    (hstatus : gs.status = "in_progress")
    (hturn : gs.current_player_id = some acting)
    (hw : py_lower (py_strip (w.getD "")) = "") :
    process_player_game_action gs acting "submit_word" { word := w } vres lat np now
      = Except.ok ({ gs with last_action_timestamp := some now },
          [{ type := "validation_result"
             payload := [("word", PVal.vStr ""), ("is_valid", PVal.vBool false),
                         ("message", PVal.vStr "Word cannot be empty.")]
             target_player_id := some acting }]) := by
  simp [process_player_game_action, hturn, hw]

/-- Witness for `c10_empty_word_rejected_without_mistake`: a whitespace-only
submission by player 1 of the sample session. -/
theorem c10_empty_word_rejected_without_mistake_witness :
    process_player_game_action sampleState 1 "submit_word" { word := some "   " }
        unusedValidation 0 none 200
      = Except.ok ({ sampleState with last_action_timestamp := some 200 },
          [{ type := "validation_result"
             payload := [("word", PVal.vStr ""), ("is_valid", PVal.vBool false),
                         ("message", PVal.vStr "Word cannot be empty.")]
             target_player_id := some 1 }]) :=
  c10_empty_word_rejected_without_mistake sampleState 1 (some "   ")
    unusedValidation 0 none 200 (by decide) (by decide) (by decide)

/-- Core lemma about `_handle_round_or_game_end` for a well-formed two-player
session with positive, distinct player ids: the timeout counter is cleared,
the session leaves `in_progress`, the round winner (the player opposite the
loser) gains one point, and the game finishes exactly when an updated score
reaches `max_rounds // 2 + 1` or the current round has reached `max_rounds`. -/
lemma handle_round_end_spec
    (gs : GameState) (a b : Int) (pa pb : GameStatePlayer) (loser : Option Int)
    (reason : RoundEndReason) (np : Option SentencePromptPublic) (now : Int)
    (hord : gs.matchmaking_player_order = [a, b])
    (hpl : gs.players = [(a, pa), (b, pb)])
    (hab : a ≠ b) (ha : 0 < a) (hb : 0 < b)
    (hloser : loser = none ∨ loser = some a ∨ loser = some b) :
    (handle_round_or_game_end gs loser reason np now).1.consecutive_timeouts = 0
    ∧ (handle_round_or_game_end gs loser reason np now).1.status ≠ "in_progress"
    ∧ (getPlayerD (handle_round_or_game_end gs loser reason np now).1 a).score
        = (if loser = some b then pa.score + 1 else pa.score)
    ∧ (getPlayerD (handle_round_or_game_end gs loser reason np now).1 b).score
        = (if loser = some a then pb.score + 1 else pb.score)
    ∧ ((handle_round_or_game_end gs loser reason np now).1.status = "finished"
        ↔ (Int.fdiv gs.max_rounds 2 + 1 ≤ (if loser = some b then pa.score + 1 else pa.score)
           ∨ Int.fdiv gs.max_rounds 2 + 1 ≤ (if loser = some a then pb.score + 1 else pb.score)
           ∨ gs.max_rounds ≤ gs.current_round)) := by
  have hane : (a != 0) = true := by simp; omega
  have hbne : (b != 0) = true := by simp; omega
  have hab' : (a == b) = false := by simp [hab]
  have hba' : (b == a) = false := by simp [Ne.symm hab]
  rcases hloser with h | h | h <;> subst h <;>
    simp [handle_round_or_game_end, prepare_next_round, hord, hpl, pyTruthyOptInt,
      getPlayerD, lookupPlayer_left, lookupPlayer_right,
      updatePlayer_left, updatePlayer_right, hab', hba', hane, hbne, hab, Ne.symm hab] <;>
    (split
     · simp [getPlayerD, lookupPlayer_left, lookupPlayer_right,
         updatePlayer_left, updatePlayer_right, hab]
       omega
     · cases np with
       | none =>
           simp [getPlayerD, lookupPlayer_left, lookupPlayer_right,
             updatePlayer_left, updatePlayer_right, hab]
           and_intros <;> omega
       | some pr =>
           simp [getPlayerD, lookupPlayer_left, lookupPlayer_right,
             updatePlayer_left, updatePlayer_right, hab]
           and_intros <;> omega)

/-- C1 amended.  For every round-end in a well-formed session with
`max_rounds = 3`, the game is declared over (`status = "finished"`) exactly
when some player's updated score is at least `max_rounds // 2 + 1 = 2` (the
floor quotient, not ceil(3/2)+1 = 3) or `current_round ≥ 3`; in particular a
round-end that brings one player's score to 2 while `current_round < 3` DOES
end the game. -/
theorem c1_game_over_at_majority_threshold
    (gs : GameState) (a b : Int) (pa pb : GameStatePlayer) (loser : Option Int)
    (reason : RoundEndReason) (np : Option SentencePromptPublic) (now : Int)
    (hord : gs.matchmaking_player_order = [a, b])
    (hpl : gs.players = [(a, pa), (b, pb)])
    (hab : a ≠ b) (ha : 0 < a) (hb : 0 < b)
    (hloser : loser = none ∨ loser = some a ∨ loser = some b)
    (hmax : gs.max_rounds = 3) :
    (getPlayerD (handle_round_or_game_end gs loser reason np now).1 a).score
        = (if loser = some b then pa.score + 1 else pa.score)
    ∧ (getPlayerD (handle_round_or_game_end gs loser reason np now).1 b).score
        = (if loser = some a then pb.score + 1 else pb.score)
    ∧ ((handle_round_or_game_end gs loser reason np now).1.status = "finished"
        ↔ (2 ≤ (if loser = some b then pa.score + 1 else pa.score)
           ∨ 2 ≤ (if loser = some a then pb.score + 1 else pb.score)
           ∨ 3 ≤ gs.current_round)) := by
  have h := handle_round_end_spec gs a b pa pb loser reason np now hord hpl hab ha hb hloser
  rw [hmax] at h
  have h2 : Int.fdiv 3 2 + 1 = 2 := by decide
  rw [h2] at h
  exact ⟨h.2.2.1, h.2.2.2.1, h.2.2.2.2⟩

/-- Witness for `c1_game_over_at_majority_threshold`: the round-2 round-end of
`c1State` (player 1 at score 1 wins the round against player 2). -/
theorem c1_game_over_at_majority_threshold_witness :
    (getPlayerD (handle_round_or_game_end c1State (some 2) RoundEndReason.TIMEOUT_MAX_MISTAKES
          (some samplePrompt) 200).1 1).score
        = (if (some 2 : Option Int) = some 2
           then ({ sampleP1 with score := 1 } : GameStatePlayer).score + 1
           else ({ sampleP1 with score := 1 } : GameStatePlayer).score)
    ∧ (getPlayerD (handle_round_or_game_end c1State (some 2) RoundEndReason.TIMEOUT_MAX_MISTAKES
          (some samplePrompt) 200).1 2).score
        = (if (some 2 : Option Int) = some 1 then sampleP2.score + 1 else sampleP2.score)
    ∧ ((handle_round_or_game_end c1State (some 2) RoundEndReason.TIMEOUT_MAX_MISTAKES
          (some samplePrompt) 200).1.status = "finished"
        ↔ (2 ≤ (if (some 2 : Option Int) = some 2
                then ({ sampleP1 with score := 1 } : GameStatePlayer).score + 1
                else ({ sampleP1 with score := 1 } : GameStatePlayer).score)
           ∨ 2 ≤ (if (some 2 : Option Int) = some 1 then sampleP2.score + 1 else sampleP2.score)
           ∨ 3 ≤ c1State.current_round)) :=
  c1_game_over_at_majority_threshold c1State 1 2 { sampleP1 with score := 1 } sampleP2
    (some 2) RoundEndReason.TIMEOUT_MAX_MISTAKES (some samplePrompt) 200
    (by decide) (by decide) (by decide) (by decide) (by decide)
    (Or.inr (Or.inr rfl)) (by decide)

/-- C7.  In an in-progress well-formed session where the current player's
timeout raises `consecutive_timeouts` from 1 to 2, the handler completes with
a round end: the player with strictly fewer `words_played` entries this round
loses (the other player's score is incremented by 1), an equal count changes
no score (draw), the session leaves `in_progress`, and `consecutive_timeouts`
is reset to 0 by the round end. -/
theorem c7_double_timeout_round_end
    (gs : GameState) (a b : Int) (pa pb : GameStatePlayer) (acting : Int)
    (vres : WordValidationResult) (lat : Int) (np : Option SentencePromptPublic) (now : Int)
    (hstatus : gs.status = "in_progress")
    (hord : gs.matchmaking_player_order = [a, b])
    (hpl : gs.players = [(a, pa), (b, pb)])
    (hab : a ≠ b) (ha : 0 < a) (hb : 0 < b)
    (hacting : acting = a ∨ acting = b)
    (hturn : gs.current_player_id = some acting)
    (hct : gs.consecutive_timeouts = 1) :
    ∃ gs2 evs,
      process_player_game_action gs acting "timeout" {} vres lat np now = Except.ok (gs2, evs)
      ∧ gs2.consecutive_timeouts = 0
      ∧ gs2.status ≠ "in_progress"
      ∧ (getPlayerD gs2 a).score
          = (if pb.words_played.length < pa.words_played.length then pa.score + 1 else pa.score)
      ∧ (getPlayerD gs2 b).score
          = (if pa.words_played.length < pb.words_played.length then pb.score + 1 else pb.score) := by
  rcases hacting with h | h <;> subst h <;>
    simp [process_player_game_action, hturn, hct, hord, hpl,
      updatePlayer_left, updatePlayer_right, getPlayerD,
      lookupPlayer_left, lookupPlayer_right, hab]
  · -- the acting player is the first of the matchmaking order
    have hspec := handle_round_end_spec
      { gs with
        players := [(acting, { pa with mistakes_in_current_round := pa.mistakes_in_current_round + 1 }), (b, pb)]
        current_player_id := some acting
        last_action_timestamp := some now
        consecutive_timeouts := 2
        matchmaking_player_order := [acting, b] }
      acting b { pa with mistakes_in_current_round := pa.mistakes_in_current_round + 1 } pb
      (if pb.words_played.length < pa.words_played.length then some b
        else if pa.words_played.length < pb.words_played.length then some acting else none)
      RoundEndReason.DOUBLE_TIMEOUT np now rfl rfl hab ha hb
      (by split_ifs <;> simp)
    simp only [getPlayerD] at hspec
    refine ⟨_, ⟨_, (Prod.mk.eta).symm⟩, hspec.1, hspec.2.1, ?_, ?_⟩
    · rw [hspec.2.2.1]
      by_cases h1 : pb.words_played.length < pa.words_played.length
      · simp [h1]
      · by_cases h2 : pa.words_played.length < pb.words_played.length <;> simp [h1, h2, hab]
    · rw [hspec.2.2.2.1]
      by_cases h1 : pb.words_played.length < pa.words_played.length
      · simp [h1, Ne.symm hab]
        omega
      · by_cases h2 : pa.words_played.length < pb.words_played.length <;> simp [h1, h2, Ne.symm hab]
  · -- the acting player is the second of the matchmaking order
    have hspec := handle_round_end_spec
      { gs with
        players := [(a, pa), (acting, { pb with mistakes_in_current_round := pb.mistakes_in_current_round + 1 })]
        current_player_id := some acting
        last_action_timestamp := some now
        consecutive_timeouts := 2
        matchmaking_player_order := [a, acting] }
      a acting pa { pb with mistakes_in_current_round := pb.mistakes_in_current_round + 1 }
      (if pb.words_played.length < pa.words_played.length then some acting
        else if pa.words_played.length < pb.words_played.length then some a else none)
      RoundEndReason.DOUBLE_TIMEOUT np now rfl rfl hab ha hb
      (by split_ifs <;> simp)
    simp only [getPlayerD] at hspec
    refine ⟨_, ⟨_, (Prod.mk.eta).symm⟩, hspec.1, hspec.2.1, ?_, ?_⟩
    · rw [hspec.2.2.1]
      by_cases h1 : pb.words_played.length < pa.words_played.length
      · simp [h1]
      · by_cases h2 : pa.words_played.length < pb.words_played.length <;> simp [h1, h2, hab]
    · rw [hspec.2.2.2.1]
      by_cases h1 : pb.words_played.length < pa.words_played.length
      · simp [h1, Ne.symm hab]
        omega
      · by_cases h2 : pa.words_played.length < pb.words_played.length <;> simp [h1, h2, Ne.symm hab]

/-- Player 1 of the double-timeout witness session: two accepted words. -/
def c7pa : GameStatePlayer := { sampleP1 with words_played := ["smoking", "burning"] }

/-- Player 2 of the double-timeout witness session: one accepted word. -/
def c7pb : GameStatePlayer := { sampleP2 with words_played := ["hot"] }

/-- The witness session: in progress, one timeout already on the clock. -/
def c7State : GameState :=
  { sampleState with
    consecutive_timeouts := 1
    players := [(1, c7pa), (2, c7pb)] }

/-- Witness for `c7_double_timeout_round_end`: player 1 (two words) times out
after player 2's timeout; player 2 (one word) loses the round. -/
theorem c7_double_timeout_round_end_witness :
    ∃ gs2 evs,
      process_player_game_action c7State 1 "timeout" {} unusedValidation 0
          (some samplePrompt) 200 = Except.ok (gs2, evs)
      ∧ gs2.consecutive_timeouts = 0
      ∧ gs2.status ≠ "in_progress"
      ∧ (getPlayerD gs2 1).score
          = (if c7pb.words_played.length < c7pa.words_played.length then c7pa.score + 1 else c7pa.score)
      ∧ (getPlayerD gs2 2).score
          = (if c7pa.words_played.length < c7pb.words_played.length then c7pb.score + 1 else c7pb.score) :=
  c7_double_timeout_round_end c7State 1 2 c7pa c7pb 1 unusedValidation 0
    (some samplePrompt) 200 rfl rfl rfl (by decide) (by decide) (by decide)
    (Or.inl rfl) rfl rfl

/-- An accepted (valid, non-duplicate, non-empty) `submit_word` copies
`consecutive_timeouts` through unchanged — there is no reset in the accepted
branch of `process_player_game_action`. -/
lemma submit_word_valid_keeps_consecutive_timeouts
    (gs : GameState) (acting : Int) (w : Option String)
    (vres : WordValidationResult) (lat : Int) (np : Option SentencePromptPublic) (now : Int)
    (hturn : gs.current_player_id = some acting)
    (hw : py_lower (py_strip (w.getD "")) ≠ "")
    (hdup : py_lower (py_strip (w.getD "")) ∉ gs.words_played_this_round_all)
    (hv : vres.is_valid = true) :
    ∃ gs2 evs,
      process_player_game_action gs acting "submit_word" { word := w } vres lat np now
          = Except.ok (gs2, evs)
      ∧ gs2.consecutive_timeouts = gs.consecutive_timeouts := by
  simp [process_player_game_action, hturn, hw, hdup, hv]

/-- A duplicate-rejected `submit_word` below the mistake cap also copies
`consecutive_timeouts` through unchanged. -/
lemma submit_word_duplicate_keeps_consecutive_timeouts
    (gs : GameState) (a b : Int) (pa pb : GameStatePlayer) (acting : Int) (w : Option String)
    (vres : WordValidationResult) (lat : Int) (np : Option SentencePromptPublic) (now : Int)
    (hpl : gs.players = [(a, pa), (b, pb)])
    (hab : a ≠ b)
    (hacting : acting = a ∨ acting = b)
    (hturn : gs.current_player_id = some acting)
    (hw : py_lower (py_strip (w.getD "")) ≠ "")
    (hdup : py_lower (py_strip (w.getD "")) ∈ gs.words_played_this_round_all)
    (hma : pa.mistakes_in_current_round + 1 < settings.MAX_MISTAKES)
    (hmb : pb.mistakes_in_current_round + 1 < settings.MAX_MISTAKES) :
    ∃ gs2 evs,
      process_player_game_action gs acting "submit_word" { word := w } vres lat np now
          = Except.ok (gs2, evs)
      ∧ gs2.consecutive_timeouts = gs.consecutive_timeouts := by
  rcases hacting with h | h <;> subst h <;>
    simp [process_player_game_action, hturn, hw, hdup, hpl, getPlayerD, settings.MAX_MISTAKES,
      updatePlayer_left, updatePlayer_right, lookupPlayer_left, lookupPlayer_right, hab]
  · have hm3 : ¬ (3 ≤ pa.mistakes_in_current_round + 1) := by
      simp [settings.MAX_MISTAKES] at hma
      omega
    rw [if_neg hm3]
    simp
  · have hm3 : ¬ (3 ≤ pb.mistakes_in_current_round + 1) := by
      simp [settings.MAX_MISTAKES] at hmb
      omega
    rw [if_neg hm3]
    simp

/-! ## C4 — consecutive_timeouts across submissions -/

/-- An in-progress session with one timeout already counted. -/
def c4CtrState : GameState := { sampleState with consecutive_timeouts := 1 }

/-- C4 counterexample.  An accepted valid word submitted while
`consecutive_timeouts = 1` leaves the counter at 1: the claim's "resets
consecutive_timeouts to 0" does not happen on any submit_word path. -/
theorem c4_valid_word_keeps_consecutive_timeouts_counterexample :
    (process_player_game_action c4CtrState 1 "submit_word" { word := some "cold" }
        { is_valid := true, creativity_score := some 2 } 7 none 200).toOption.map
        (fun r => r.1.consecutive_timeouts) = some 1
    ∧ (process_player_game_action c4CtrState 1 "submit_word" { word := some "cold" }
        { is_valid := true, creativity_score := some 2 } 7 none 200).toOption.map
        (fun r => r.1.consecutive_timeouts) ≠ some 0 := by
  decide

/-- Step 1 of the timeout / accepted-word / timeout scenario: player 1 times
out in the fresh sample session. -/
def c4Run1 : Except PyErr (GameState × List GameEvent) :=
  process_player_game_action sampleState 1 "timeout" {} unusedValidation 0 none 200

/-- The state after the first timeout. -/
def c4State1 : GameState := (c4Run1.toOption.getD (sampleState, [])).1

/-- Step 2: player 2 submits the accepted word "hot". -/
def c4Run2 : Except PyErr (GameState × List GameEvent) :=
  process_player_game_action c4State1 2 "submit_word" { word := some "hot" }
    { is_valid := true, creativity_score := some 3 } 10 none 210

/-- The state after the accepted word. -/
def c4State2 : GameState := (c4Run2.toOption.getD (sampleState, [])).1

/-- Step 3: player 1 times out again. -/
def c4Run3 : Except PyErr (GameState × List GameEvent) :=
  process_player_game_action c4State2 1 "timeout" {} unusedValidation 0 (some samplePrompt) 220

/-- C4 amended.  `consecutive_timeouts` is NOT reset by non-timeout round
actions: an accepted `submit_word` and a duplicate-rejected `submit_word`
(below the mistake cap) both leave it unchanged — only a round end clears it.
Consequently a timeout, followed by an accepted word from the other player,
followed by another timeout DOES trigger the double-timeout round end, as the
concrete three-step run shows (the counter stays at 1 across the accepted
word, the third action ends the round with reason `double_timeout` and resets
the counter). -/
theorem c4_consecutive_timeouts_not_reset_by_submissions :
    (∀ (gs : GameState) (acting : Int) (w : Option String) (vres : WordValidationResult)
        (lat : Int) (np : Option SentencePromptPublic) (now : Int),
      gs.current_player_id = some acting →
      py_lower (py_strip (w.getD "")) ≠ "" →
      py_lower (py_strip (w.getD "")) ∉ gs.words_played_this_round_all →
      vres.is_valid = true →
      ∃ gs2 evs,
        process_player_game_action gs acting "submit_word" { word := w } vres lat np now
            = Except.ok (gs2, evs)
        ∧ gs2.consecutive_timeouts = gs.consecutive_timeouts)
    ∧ (∀ (gs : GameState) (a b : Int) (pa pb : GameStatePlayer) (acting : Int)
        (w : Option String) (vres : WordValidationResult) (lat : Int)
        (np : Option SentencePromptPublic) (now : Int),
      gs.players = [(a, pa), (b, pb)] →
      a ≠ b →
      acting = a ∨ acting = b →
      gs.current_player_id = some acting →
      py_lower (py_strip (w.getD "")) ≠ "" →
      py_lower (py_strip (w.getD "")) ∈ gs.words_played_this_round_all →
      pa.mistakes_in_current_round + 1 < settings.MAX_MISTAKES →
      pb.mistakes_in_current_round + 1 < settings.MAX_MISTAKES →
      ∃ gs2 evs,
        process_player_game_action gs acting "submit_word" { word := w } vres lat np now
            = Except.ok (gs2, evs)
        ∧ gs2.consecutive_timeouts = gs.consecutive_timeouts)
    ∧ (c4State1.consecutive_timeouts = 1
        ∧ c4State2.consecutive_timeouts = 1
        ∧ c4Run3.toOption.map (fun r => (r.1.status, r.1.consecutive_timeouts))
            = some ("waiting_for_ready", 0)
        ∧ c4Run3.toOption.map
            (fun r => r.2.any (fun e =>
              e.payload.contains ("previous_round_end_reason", PVal.vStr "double_timeout")))
            = some true) :=
  ⟨fun gs acting w vres lat np now hturn hw hdup hv =>
      submit_word_valid_keeps_consecutive_timeouts gs acting w vres lat np now hturn hw hdup hv,
   fun gs a b pa pb acting w vres lat np now hpl hab hacting hturn hw hdup hma hmb =>
      submit_word_duplicate_keeps_consecutive_timeouts gs a b pa pb acting w vres lat np now
        hpl hab hacting hturn hw hdup hma hmb,
   by decide⟩

/-- Witness for `c4_consecutive_timeouts_not_reset_by_submissions`: both
universal parts applied to the sample session (accepted "cold" with the
counter at 1; duplicate "hot" with the counter at 1). -/
theorem c4_consecutive_timeouts_not_reset_by_submissions_witness :
    (∃ gs2 evs,
      process_player_game_action c4CtrState 1 "submit_word" { word := some "cold" }
          { is_valid := true, creativity_score := some 2 } 7 none 200
        = Except.ok (gs2, evs)
      ∧ gs2.consecutive_timeouts = c4CtrState.consecutive_timeouts)
    ∧ (∃ gs2 evs,
      process_player_game_action
          { c4CtrState with words_played_this_round_all := ["hot"] } 1 "submit_word"
          { word := some "hot" } unusedValidation 0 none 200
        = Except.ok (gs2, evs)
      ∧ gs2.consecutive_timeouts
          = ({ c4CtrState with words_played_this_round_all := ["hot"] } : GameState).consecutive_timeouts) :=
  ⟨c4_consecutive_timeouts_not_reset_by_submissions.1 c4CtrState 1 (some "cold")
      { is_valid := true, creativity_score := some 2 } 7 none 200
      rfl (by decide) (by decide) rfl,
   c4_consecutive_timeouts_not_reset_by_submissions.2.1
      { c4CtrState with words_played_this_round_all := ["hot"] } 1 2 sampleP1 sampleP2 1
      (some "hot") unusedValidation 0 none 200
      rfl (by decide) (Or.inl rfl) rfl (by decide) (by decide) (by decide) (by decide)⟩

/-! ## C8 — validation cache correctness -/

/-- On a pattern free of LIKE metacharacters, `likeMatchFuel` (with fuel
exceeding the pattern length) is plain equality of character lists. -/
lemma likeMatchFuel_literal (n : Nat) (p s : List Char)
    (hp : ∀ c ∈ p, c ≠ '%' ∧ c ≠ '_' ∧ c ≠ '\\') (hn : p.length < n) :
    likeMatchFuel n p s = (p == s) := by
  induction n generalizing p s with
  | zero => omega
  | succ n ih =>
    cases p with
    | nil =>
        cases s <;> simp [likeMatchFuel, List.isEmpty]
    | cons pc ps =>
        have hpc := hp pc (List.mem_cons_self _ _)
        have h1 : (pc == '%') = false := by simp [hpc.1]
        have h2 : (pc == '_') = false := by simp [hpc.2.1]
        have h3 : (pc == '\\') = false := by simp [hpc.2.2]
        simp only [likeMatchFuel, h1, h2, h3, Bool.false_eq_true, if_false]
        cases s with
        | nil => simp
        | cons c s2 =>
            show (pc == c && likeMatchFuel n ps s2) = ((pc :: ps) == (c :: s2))
            rw [ih ps s2 (fun d hd => hp d (List.mem_cons_of_mem _ hd)) (by simp at hn ⊢; omega)]
            rfl

/-- On a metacharacter-free pattern, SQL LIKE is equality. -/
lemma likeMatch_literal (p s : List Char)
    (hp : ∀ c ∈ p, c ≠ '%' ∧ c ≠ '_' ∧ c ≠ '\\') :
    likeMatch p s = (p == s) :=
  likeMatchFuel_literal _ p s hp (by omega)

/-- Unpacking the Boolean `isLiteralWord` check into per-character facts. -/
lemma isLiteralWord_spec (w : String) (h : isLiteralWord w = true) :
    ∀ c ∈ w.data, c ≠ '%' ∧ c ≠ '_' ∧ c ≠ '\\' := by
  intro c hc
  have := List.all_eq_true.mp h c hc
  simp at this
  exact ⟨this.1.1, this.1.2, this.2⟩

/-- A cache hit returns the stored row verbatim with `from_cache = true`,
latency 0, both counters bumped, and no oracle invocation. -/
lemma validate_cache_hit (db : List WordSubmissionRec) (stats : ValidationStats)
    (word : String) (pid : Int) (j : GeminiJudgment) (rec : WordSubmissionRec)
    (hhit : latestMatchingSubmission db pid (py_lower (py_strip word)) = some rec) :
    validate_word_against_prompt db stats word pid j
      = { result := { is_valid := rec.is_valid, creativity_score := rec.creativity_score,
                      from_cache := true, error_message := none }
          latency_ms := 0
          stats := { total_calls := stats.total_calls + 1, cache_hits := stats.cache_hits + 1 }
          oracle_called := false } := by
  simp [validate_word_against_prompt, hhit]

/-- The result is from the cache exactly when a matching submission exists. -/
lemma validate_from_cache_iff (db : List WordSubmissionRec) (stats : ValidationStats)
    (word : String) (pid : Int) (j : GeminiJudgment) :
    (validate_word_against_prompt db stats word pid j).result.from_cache
      = (latestMatchingSubmission db pid (py_lower (py_strip word))).isSome := by
  cases h : latestMatchingSubmission db pid (py_lower (py_strip word)) <;>
    simp [validate_word_against_prompt, h]

/-- Appending a row to the submission table preserves an existing cache hit. -/
lemma latestMatching_append_isSome (db : List WordSubmissionRec) (r : WordSubmissionRec)
    (pid : Int) (w : String)
    (h : (latestMatchingSubmission db pid w).isSome) :
    (latestMatchingSubmission (db ++ [r]) pid w).isSome := by
  unfold latestMatchingSubmission at *
  rw [List.reverse_append]
  simp only [List.reverse_cons, List.reverse_nil, List.nil_append, List.singleton_append]
  cases hp : (r.sentence_prompt_id == pid &&
      likeMatch (py_lower w).data (py_lower r.submitted_word).data)
  · rwa [List.find?_cons_of_neg _ (by simp [hp])]
  · rw [List.find?_cons_of_pos _ (by simp_all)]
    simp

/-- Appending a row that the pattern matches makes the lookup hit. -/
lemma latestMatching_append_hit (db : List WordSubmissionRec) (r : WordSubmissionRec)
    (pid : Int) (w : String)
    (h1 : r.sentence_prompt_id = pid)
    (h2 : likeMatch (py_lower w).data (py_lower r.submitted_word).data = true) :
    (latestMatchingSubmission (db ++ [r]) pid w).isSome := by
  unfold latestMatchingSubmission
  rw [List.reverse_append]
  simp only [List.reverse_cons, List.reverse_nil, List.nil_append, List.singleton_append]
  rw [List.find?_cons_of_pos _ (by simp [h1, h2])]
  simp

/-- Once the table holds a row for a key, a logged validation run makes no
oracle call for that key at all. -/
lemma count_oracleCallKeys_of_hit (qs : List VQuery) (db : List WordSubmissionRec)
    (t : Int) (k : Int × String)
    (h : (latestMatchingSubmission db k.1 k.2).isSome) :
    (oracleCallKeys qs db t).count k = 0 := by
  induction qs generalizing db t with
  | nil => simp [oracleCallKeys]
  | cons q qs ih =>
    unfold oracleCallKeys
    rw [validate_from_cache_iff]
    cases hq : latestMatchingSubmission db q.prompt_id (py_lower (py_strip q.word)) with
    | some r =>
        simp only [hq, Option.isSome_some, if_pos]
        exact ih db t h
    | none =>
        simp only [hq, Option.isSome_none, Bool.false_eq_true, if_false]
        rw [List.count_cons]
        have hne : ¬ ((q.prompt_id, py_lower (py_strip q.word)) = k) := by
          intro hk
          rw [← hk] at h
          simp only at h
          rw [hq] at h
          simp at h
        have hne2 : ((q.prompt_id, py_lower (py_strip q.word)) == k) = false := by
          rw [beq_eq_false_iff_ne]
          exact hne
        rw [hne2]
        simp only [Bool.false_eq_true, if_false, Nat.add_zero]
        exact ih _ _ (latestMatching_append_isSome db _ k.1 k.2 h)

/-- In a logged validation run over normalised, metacharacter-free words, the
oracle is invoked at most once per `(prompt_id, word)` key: the first miss
logs a row the (then wildcard-free) pattern matches, and every later query for
the key is a cache hit. -/
lemma count_oracleCallKeys_le_one (qs : List VQuery) (db : List WordSubmissionRec)
    (t : Int) (k : Int × String)
    (hnorm : ∀ q ∈ qs, py_strip q.word = q.word ∧ py_lower q.word = q.word
      ∧ isLiteralWord q.word = true) :
    (oracleCallKeys qs db t).count k ≤ 1 := by
  induction qs generalizing db t with
  | nil => simp [oracleCallKeys]
  | cons q qs ih =>
    unfold oracleCallKeys
    rw [validate_from_cache_iff]
    cases hq : latestMatchingSubmission db q.prompt_id (py_lower (py_strip q.word)) with
    | some r =>
        simp only [hq, Option.isSome_some, if_pos]
        exact ih _ _ (fun p hp => hnorm p (List.mem_cons_of_mem _ hp))
    | none =>
        simp only [hq, Option.isSome_none, Bool.false_eq_true, if_false]
        rw [List.count_cons]
        by_cases hk : (q.prompt_id, py_lower (py_strip q.word)) = k
        · have hkey : ((q.prompt_id, py_lower (py_strip q.word)) == k) = true := by
            rw [beq_iff_eq]
            exact hk
          rw [hkey]
          have hn := hnorm q (List.mem_cons_self _ _)
          have hword : py_lower (py_strip q.word) = q.word := by rw [hn.1, hn.2.1]
          obtain ⟨hk1, hk2⟩ : k.1 = q.prompt_id ∧ k.2 = py_lower (py_strip q.word) := by
            rw [← hk]
            exact ⟨rfl, rfl⟩
          have hrest : (oracleCallKeys qs
              (db ++ [loggedSubmission q
                (validate_word_against_prompt db { total_calls := 0, cache_hits := 0 }
                  q.word q.prompt_id q.judgment).result t]) (t + 1)).count k = 0 := by
            apply count_oracleCallKeys_of_hit
            apply latestMatching_append_hit
            · show q.prompt_id = k.1
              rw [hk1]
            · show likeMatch (py_lower k.2).data (py_lower q.word).data = true
              rw [hk2, hword, hn.2.1]
              rw [likeMatch_literal _ _ (isLiteralWord_spec _ hn.2.2)]
              simp
          rw [hrest]
          simp
        · have hkey : ((q.prompt_id, py_lower (py_strip q.word)) == k) = false := by
            rw [beq_eq_false_iff_ne]
            exact hk
          rw [hkey]
          simp only [Bool.false_eq_true, if_false, Nat.add_zero]
          exact ih _ _ (fun p hp => hnorm p (List.mem_cons_of_mem _ hp))

/-- For a normalised, metacharacter-free word, a stored row whose
`submitted_word` equals the word case-insensitively makes the `ilike` lookup
hit, and whatever row the lookup returns also equals the word
case-insensitively (wildcard cross-matches need a metacharacter). -/
lemma latestMatching_hit_of_literal_eq
    (db : List WordSubmissionRec) (pid : Int) (word : String) (rec : WordSubmissionRec)
    (hstrip : py_strip word = word) (hlow : py_lower word = word)
    (hlit : isLiteralWord word = true)
    (hmem : rec ∈ db) (hpid : rec.sentence_prompt_id = pid)
    (heq : py_lower rec.submitted_word = word) :
    ∃ rec2, latestMatchingSubmission db pid (py_lower (py_strip word)) = some rec2
      ∧ rec2.sentence_prompt_id = pid ∧ py_lower rec2.submitted_word = word := by
  have hword : py_lower (py_strip word) = word := by rw [hstrip, hlow]
  rw [hword]
  have hpredIff : ∀ r : WordSubmissionRec,
      ((r.sentence_prompt_id == pid &&
          likeMatch (py_lower word).data (py_lower r.submitted_word).data) = true)
        ↔ (r.sentence_prompt_id = pid ∧ py_lower r.submitted_word = word) := by
    intro r
    rw [hlow, likeMatch_literal _ _ (isLiteralWord_spec _ hlit)]
    constructor
    · intro h
      simp only [Bool.and_eq_true, beq_iff_eq] at h
      exact ⟨h.1, (String.ext h.2).symm⟩
    · intro h
      simp only [Bool.and_eq_true, beq_iff_eq]
      exact ⟨h.1, h.2.symm ▸ rfl⟩
  have hsome : (db.reverse.find? (fun r =>
      r.sentence_prompt_id == pid &&
        likeMatch (py_lower word).data (py_lower r.submitted_word).data)).isSome := by
    rw [List.find?_isSome]
    exact ⟨rec, List.mem_reverse.mpr hmem, (hpredIff rec).mpr ⟨hpid, heq⟩⟩
  obtain ⟨rec2, hfind⟩ := Option.isSome_iff_exists.mp hsome
  have hp2 := List.find?_some hfind
  simp only at hp2
  exact ⟨rec2, hfind, ((hpredIff rec2).mp hp2).1, ((hpredIff rec2).mp hp2).2⟩

/-- The stored submission row of the cache witness. -/
def c8Rec : WordSubmissionRec :=
  { sentence_prompt_id := 1, submitted_word := "hot", is_valid := true,
    creativity_score := some 3, submission_timestamp := 7 }

/-- A concrete validation request for the word "hot" on prompt 1. -/
def c8Query : VQuery :=
  { word := "hot", prompt_id := 1,
    judgment := { is_valid := JVal.jBool true, creativity_score := JVal.jInt 3,
                  reason := "ok", latency_ms := 9 } }

/-- A stored row whose word contains a backslash: on PostgreSQL the backslash
in the submitted PATTERN is the LIKE escape, so this row can never be found
by a lookup of its own word. -/
def c8bsRec : WordSubmissionRec :=
  { sentence_prompt_id := 1, submitted_word := "a\\b", is_valid := true,
    creativity_score := some 4, submission_timestamp := 3 }

/-- A validation request for the backslash word matching `c8bsRec`. -/
def c8bsQuery : VQuery :=
  { word := "a\\b", prompt_id := 1,
    judgment := { is_valid := JVal.jBool true, creativity_score := JVal.jInt 2,
                  reason := "ok", latency_ms := 5 } }

/-- C8 counterexample.  The claim fails for words containing LIKE
metacharacters.  Backslash: the table holds a row whose `submitted_word` is
byte-identical (hence case-insensitively equal) to the queried word
`a\x5cb`, yet the lookup misses (`LIKE` pattern `a\x5cb` only matches `ab`),
the call is NOT served from the cache and DOES invoke the oracle — and a
logged run of two identical queries invokes the oracle twice, refuting
"at most once per (prompt_id, word)".  Wildcard: a query for `h_t` is served
`from_cache = true` with the stored values of the DIFFERENT word `hot`. -/
theorem c8_backslash_word_defeats_cache_counterexample :
    py_lower (py_strip c8bsQuery.word) = py_lower c8bsRec.submitted_word
    ∧ c8bsRec.sentence_prompt_id = c8bsQuery.prompt_id
    ∧ (validate_word_against_prompt [c8bsRec] { total_calls := 0, cache_hits := 0 }
        c8bsQuery.word c8bsQuery.prompt_id c8bsQuery.judgment).result.from_cache = false
    ∧ (validate_word_against_prompt [c8bsRec] { total_calls := 0, cache_hits := 0 }
        c8bsQuery.word c8bsQuery.prompt_id c8bsQuery.judgment).oracle_called = true
    ∧ (oracleCallKeys [c8bsQuery, c8bsQuery] [c8bsRec] 10).count
        (c8bsQuery.prompt_id, py_lower (py_strip c8bsQuery.word)) = 2
    ∧ (validate_word_against_prompt [c8Rec] { total_calls := 0, cache_hits := 0 } "h_t" 1
        c8bsQuery.judgment).result
      = { is_valid := c8Rec.is_valid, creativity_score := c8Rec.creativity_score,
          from_cache := true, error_message := none }
    ∧ py_lower (py_strip "h_t") ≠ py_lower c8Rec.submitted_word := by
  decide

/-- C8 amended.  For words free of the SQL LIKE metacharacters `%`, `_` and
backslash (every ordinary game word), the cache behaves as claimed.  First
conjunct: whenever the `ilike` lookup finds a row, the Validate call returns
the stored `(is_valid, creativity_score)` with `from_cache = true` and
`latency_ms = 0`, makes no external oracle call, and increments both
`total_calls` and `cache_hits`.  Second conjunct: for a normalised
metacharacter-free word, a stored row that equals the word case-insensitively
guarantees the lookup hits, and the row it returns equals the word
case-insensitively as well.  Third conjunct: in a sequential run in which
every non-cache result is logged (as `process_player_game_action` does), the
oracle is called at most once per `(prompt_id, word)` key.  For words with
metacharacters none of this holds (see the counterexample). -/
theorem c8_literal_word_cache_hit_and_single_oracle_call :
    (∀ (db : List WordSubmissionRec) (stats : ValidationStats) (word : String)
        (pid : Int) (j : GeminiJudgment) (rec : WordSubmissionRec),
      latestMatchingSubmission db pid (py_lower (py_strip word)) = some rec →
      validate_word_against_prompt db stats word pid j
        = { result := { is_valid := rec.is_valid, creativity_score := rec.creativity_score,
                        from_cache := true, error_message := none }
            latency_ms := 0
            stats := { total_calls := stats.total_calls + 1, cache_hits := stats.cache_hits + 1 }
            oracle_called := false })
    ∧ (∀ (db : List WordSubmissionRec) (pid : Int) (word : String) (rec : WordSubmissionRec),
      py_strip word = word → py_lower word = word → isLiteralWord word = true →
      rec ∈ db → rec.sentence_prompt_id = pid → py_lower rec.submitted_word = word →
      ∃ rec2, latestMatchingSubmission db pid (py_lower (py_strip word)) = some rec2
        ∧ rec2.sentence_prompt_id = pid ∧ py_lower rec2.submitted_word = word)
    ∧ (∀ (qs : List VQuery) (db : List WordSubmissionRec) (t : Int) (k : Int × String),
      (∀ q ∈ qs, py_strip q.word = q.word ∧ py_lower q.word = q.word
        ∧ isLiteralWord q.word = true) →
      (oracleCallKeys qs db t).count k ≤ 1) :=
  ⟨validate_cache_hit,
   fun db pid word rec hstrip hlow hlit hmem hpid heq =>
     latestMatching_hit_of_literal_eq db pid word rec hstrip hlow hlit hmem hpid heq,
   count_oracleCallKeys_le_one⟩

/-- Witness for `c8_literal_word_cache_hit_and_single_oracle_call`: a lookup
of "Hot" against a table holding "hot" is served from the cache with the
stored values; the stored "hot" row guarantees a hit for the word "hot"; and
a run of two identical "hot" queries over an empty table calls the oracle at
most once. -/
theorem c8_literal_word_cache_hit_and_single_oracle_call_witness :
    (validate_word_against_prompt [c8Rec] { total_calls := 10, cache_hits := 4 } "Hot" 1
        c8Query.judgment
      = { result := { is_valid := c8Rec.is_valid, creativity_score := c8Rec.creativity_score,
                      from_cache := true, error_message := none }
          latency_ms := 0
          stats := { total_calls := 11, cache_hits := 5 }
          oracle_called := false })
    ∧ (∃ rec2, latestMatchingSubmission [c8Rec] 1 (py_lower (py_strip "hot")) = some rec2
        ∧ rec2.sentence_prompt_id = 1 ∧ py_lower rec2.submitted_word = "hot")
    ∧ (oracleCallKeys [c8Query, c8Query] [] 0).count (1, "hot") ≤ 1 :=
  ⟨c8_literal_word_cache_hit_and_single_oracle_call.1 [c8Rec]
      { total_calls := 10, cache_hits := 4 } "Hot" 1 c8Query.judgment c8Rec (by decide),
   c8_literal_word_cache_hit_and_single_oracle_call.2.1 [c8Rec] 1 "hot" c8Rec
      (by decide) (by decide) (by decide) (by decide) (by decide) (by decide),
   c8_literal_word_cache_hit_and_single_oracle_call.2.2 [c8Query, c8Query] [] 0 (1, "hot")
      (by decide)⟩

end WordExtremist
